import Mathlib

/-!
Verification development for the aircraft state aggregation engine
(`AircraftState.py`, `SeenAircraft.py`, `stream1090/adsb_decoder.py`,
`stream1090/streamConsumer.py`).

Modelling conventions of the shallow embedding:
* timestamps are integers (seconds); every call of `datetime.now(...)`
  inside one message-processing step is modelled by a single explicit
  `now : Int` parameter;
* Python floats (latitude, longitude, speed, heading, vertical rate) are
  modelled as `Int` — no claim depends on their arithmetic, only on
  presence and absence;
* a Python `Optional` field is `Option _`; Python truthiness of an
  optional string (`if value:`) is `isSome` together with non-emptiness;
* a decoded-message dict is a structure of optional fields: `none` means
  the key is absent (the decoder never stores a key with value `None`
  for any field a consumer reads without an `is not None` guard);
* the external position resolver `pms.adsb.airborne_position` and the
  external `pyModeS` decoding primitives are parameters; a call that may
  raise is `Except String _`, and a `try/except` block is a `match` on
  that result;
* the mutable `dict` registry is an association list with in-place
  update (`setAircraft` replaces the binding of an existing key).
-/

/-- External position resolver: `pms.adsb.airborne_position(evenFrame,
oddFrame, evenTime, oddTime)`.  `Except.error` models a raised exception,
`Except.ok none` models returning `None`. -/
def Resolver : Type := String → String → Int → Int → Except String (Option (Int × Int))

/-- Per-aircraft record (`AircraftState.__init__`).  The CPR frame and its
capture timestamp are always written together in the source, so each parity
buffer is one optional pair. -/
structure AircraftState where
  icao : String
  callsign : Option String := none
  lat : Option Int := none
  lon : Option Int := none
  alt : Option Int := none
  speed : Option Int := none
  heading : Option Int := none
  vertical_rate : Option Int := none
  velocity_type : Option String := none
  cpr_even : Option (String × Int) := none
  cpr_odd : Option (String × Int) := none
  first_seen : Int
  last_seen : Int
  message_count : Nat
  deriving Repr, DecidableEq

/-- `AircraftState(icao)`: fresh record, `message_count = 1`,
`first_seen = last_seen = now`. -/
def AircraftState.create (icao : String) (now : Int) : AircraftState :=
  { icao := icao, first_seen := now, last_seen := now, message_count := 1 }

/-- `AircraftState._update_timestamp`. -/
def AircraftState.update_timestamp (now : Int) (a : AircraftState) : AircraftState :=
  { a with last_seen := now, message_count := a.message_count + 1 }

/-- Python truthiness of an `Optional[str]` value. -/
def pyTruthyStr (v : Option String) : Bool :=
  match v with
  | some s => s != ""
  | none => false

/-- `callsign` property setter: only updates when the value is truthy
(not `None` and not the empty string). -/
def AircraftState.set_callsign (now : Int) (a : AircraftState) (v : Option String) : AircraftState :=
  if pyTruthyStr v then ({ a with callsign := v }).update_timestamp now else a

/-- `speed` property setter: unconditional assignment plus timestamp. -/
def AircraftState.set_speed (now : Int) (a : AircraftState) (v : Option Int) : AircraftState :=
  ({ a with speed := v }).update_timestamp now

/-- `heading` property setter. -/
def AircraftState.set_heading (now : Int) (a : AircraftState) (v : Option Int) : AircraftState :=
  ({ a with heading := v }).update_timestamp now

/-- `vertical_rate` property setter. -/
def AircraftState.set_vertical_rate (now : Int) (a : AircraftState) (v : Option Int) : AircraftState :=
  ({ a with vertical_rate := v }).update_timestamp now

/-- `velocity_type` property setter. -/
def AircraftState.set_velocity_type (now : Int) (a : AircraftState) (v : Option String) : AircraftState :=
  ({ a with velocity_type := v }).update_timestamp now

/-- First half of `update_position_from_message` (lines 52-67): update the
altitude when provided, count the message, then overwrite the buffer of the
arriving parity with the raw frame and the capture time. -/
def cpr_buffer_state (now : Int) (a : AircraftState) (raw_msg : String)
    (altitude : Option Int) (cpr_odd_flag : Bool) : AircraftState :=
  let a := match altitude with
    | some v => { a with alt := some v }
    | none => a
  let a := a.update_timestamp now
  if cpr_odd_flag then { a with cpr_odd := some (raw_msg, now) }
  else { a with cpr_even := some (raw_msg, now) }

/-- `AircraftState.update_position_from_message`.  After buffering, the
source checks `if self._cpr_even_frame and self._cpr_odd_frame:` (Python
truthiness: both buffered and both frame strings non-empty), then
`time_diff < 10`, and only then calls the external resolver; a resolver
exception or a `None` result leaves the position untouched. -/
def AircraftState.update_position_from_message (resolver : Resolver) (now : Int)
    (a : AircraftState) (raw_msg : String) (altitude : Option Int)
    (cpr_odd_flag : Bool) : AircraftState × Bool :=
  let a := cpr_buffer_state now a raw_msg altitude cpr_odd_flag
  match a.cpr_even, a.cpr_odd with
  | some (ef, et), some (og, ot) =>
    if ef != "" && og != "" then
      if (et - ot).natAbs < 10 then
        match resolver ef og et ot with
        | .ok (some p) => ({ a with lat := some p.1, lon := some p.2 }, true)
        | _ => (a, false)
      else (a, false)
    else (a, false)
  | _, _ => (a, false)

/-- `AircraftState.is_complete`. -/
def AircraftState.is_complete (a : AircraftState) : Bool :=
  let has_identity := a.callsign.isSome
  let has_position := a.lat.isSome && a.lon.isSome && a.alt.isSome
  let has_velocity := a.speed.isSome && a.heading.isSome && a.vertical_rate.isSome
  has_identity && has_position && has_velocity

/-- The `data` field map of a decoded message.  `none` = key absent. -/
structure MsgData where
  callsign : Option String := none
  altitude : Option Int := none
  cpr_odd_flag : Option Bool := none
  cpr_frame_type : Option String := none
  speed : Option Int := none
  heading : Option Int := none
  vertical_rate : Option Int := none
  velocity_type : Option String := none
  squawk : Option Int := none
  emergency_state : Option Int := none
  emergency_squawk : Option Int := none
  typecode : Option Int := none
  df : Option Int := none
  deriving Repr, DecidableEq

/-- A decoded message as produced by `decode_message` (success case). -/
structure DecodedMsg where
  msg : Option String := none
  df : Option Int := none
  icao : Option String := none
  msg_type : Option String := none
  typecode : Option Int := none
  data : MsgData := {}
  deriving Repr, DecidableEq

/-- Record-level dispatch of `SeenAircraft.update_from_decoded_message`
(lines 40-123), acting on the looked-up record.  The final two source
branches (the recognized-but-unhandled list and the unknown-type warning)
both just count the message, so they share the trailing `else`. -/
def SeenAircraft.dispatch_message (resolver : Resolver) (now : Int)
    (a : AircraftState) (m : DecodedMsg) : AircraftState :=
  let mt := m.msg_type
  let data := m.data
  if mt = some "identity" ∧ data.callsign.isSome then
    a.set_callsign now data.callsign
  else if mt = some "position" ∨ mt = some "position_gnss" ∨ mt = some "surface_position" then
    match m.msg with
    | some raw =>
      if raw != "" then
        if mt = some "position" ∨ mt = some "position_gnss" then
          (a.update_position_from_message resolver now raw data.altitude
            (data.cpr_odd_flag.getD false)).1
        else
          match data.altitude with
          | some v => ({ a with alt := some v }).update_timestamp now
          | none => a.update_timestamp now
      else a.update_timestamp now
    | none => a.update_timestamp now
  else if mt = some "velocity" then
    let a := if data.speed.isSome then a.set_speed now data.speed else a
    let a := if data.heading.isSome then a.set_heading now data.heading else a
    let a := if data.vertical_rate.isSome then a.set_vertical_rate now data.vertical_rate else a
    let a := if data.velocity_type.isSome then a.set_velocity_type now data.velocity_type else a
    if !(data.speed.isSome || data.heading.isSome ||
         data.vertical_rate.isSome || data.velocity_type.isSome) then
      a.update_timestamp now
    else a
  else if mt = some "surveillance_alt" ∨ mt = some "commb_alt" ∨
          mt = some "short_acas" ∨ mt = some "long_acas" then
    match data.altitude with
    | some v => ({ a with alt := some v }).update_timestamp now
    | none => a.update_timestamp now
  else if mt = some "surveillance_identity" then
    a.update_timestamp now
  else
    a.update_timestamp now

/-- Registry lookup (`icao in self.aircraft` / `self.aircraft[icao]`). -/
def lookupAircraft (l : List (String × AircraftState)) (k : String) : Option AircraftState :=
  (l.find? (fun p => p.1 == k)).map (fun p => p.2)

/-- Registry upsert (`self.aircraft[icao] = ...`). -/
def setAircraft : List (String × AircraftState) → String → AircraftState →
    List (String × AircraftState)
  | [], k, a => [(k, a)]
  | p :: t, k, a => if p.1 == k then (k, a) :: t else p :: setAircraft t k a

/-- `SeenAircraft.__init__`. -/
structure SeenAircraft where
  aircraft : List (String × AircraftState) := []
  cleanup_threshold_seconds : Int := 300
  deriving Repr, DecidableEq

/-- `SeenAircraft.update_from_decoded_message`: bail out when the message
carries no aircraft key, create the record on first sight, dispatch, and
return the record exactly when it is now complete. -/
def SeenAircraft.update_from_decoded_message (resolver : Resolver) (now : Int)
    (st : SeenAircraft) (m : DecodedMsg) : SeenAircraft × Option AircraftState :=
  match m.icao with
  | none => (st, none)
  | some icao =>
    let a0 := match lookupAircraft st.aircraft icao with
      | some a => a
      | none => AircraftState.create icao now
    let a1 := SeenAircraft.dispatch_message resolver now a0 m
    ({ st with aircraft := setAircraft st.aircraft icao a1 },
     if a1.is_complete then some a1 else none)

/-- `SeenAircraft.cleanup_old_aircraft`: delete every key whose record
satisfies `now - last_seen > threshold` (equivalently: keep the keys with
`now - last_seen <= threshold`). -/
def SeenAircraft.cleanup_old_aircraft (now : Int) (st : SeenAircraft) : SeenAircraft :=
  { st with aircraft :=
      st.aircraft.filter (fun p => decide (now - p.2.last_seen ≤ st.cleanup_threshold_seconds)) }

/-- Fold a list of (arrival time, decoded message) events through the
registry, as the consumer loop does. -/
def run_messages (resolver : Resolver) (st : SeenAircraft)
    (evs : List (Int × DecodedMsg)) : SeenAircraft :=
  evs.foldl (fun st e => (st.update_from_decoded_message resolver e.1 e.2).1) st

/-- The external `pyModeS` primitives used by `decode_message`, each
returning `Except.error` when the library call raises. -/
structure PMS where
  df : String → Except String Int
  icao : String → Except String String
  typecode : String → Except String Int
  adsb_callsign : String → Except String String
  oe_flag : String → Except String Bool
  adsb_altitude : String → Except String (Option Int)
  adsb_velocity : String → Except String (Option (Option Int × Option Int × Option Int × Option String))
  emergency_state : String → Except String Int
  emergency_squawk : String → Except String Int
  altcode : String → Except String (Option Int)
  idcode : String → Except String (Option Int)

/-- `list.startsWith`, by characters (kernel-computable counterpart of
Python `str.startswith`). -/
def listStartsWith : List Char → List Char → Bool
  | _, [] => true
  | [], _ :: _ => false
  | c :: cs, p :: ps => c == p && listStartsWith cs ps

/-- Python `s.startswith(p)`. -/
def str_startswith (s p : String) : Bool := listStartsWith s.data p.data

/-- Python `s.endswith(p)`. -/
def str_endswith (s p : String) : Bool := listStartsWith s.data.reverse p.data.reverse

/-- Python `s.strip()`: drop leading and trailing whitespace. -/
def py_strip (s : String) : String :=
  ⟨((s.data.dropWhile Char.isWhitespace).reverse.dropWhile Char.isWhitespace).reverse⟩

/-- Leading `*` and trailing `;` stripping at the top of `decode_message`. -/
def strip_frame_markers (msg : String) : String :=
  let m1 := if str_startswith msg "*" then msg.drop 1 else msg
  if str_endswith m1 ";" then m1.dropRight 1 else m1

/-- The body of `decode_message` inside its `try:` block (lines 30-161).
An uncaught library exception propagates as `Except.error`; the inner
`try/except` blocks around `emergency_state` / `emergency_squawk` /
`altcode` (DF=4) / `idcode` (DF=5) swallow the error and skip the field. -/
def decode_body (pms : PMS) (msg : String) : Except String DecodedMsg := do
  let df ← pms.df msg
  let icao ← pms.icao msg
  let base : DecodedMsg := { msg := some msg, df := some df, icao := some icao }
  if df = 17 ∨ df = 18 then
    let tc ← pms.typecode msg
    let base := { base with typecode := some tc }
    if 1 ≤ tc ∧ tc ≤ 4 then
      let cs ← pms.adsb_callsign msg
      if cs != "" then
        pure { base with msg_type := some "identity",
                         data := { base.data with callsign := some (py_strip cs) } }
      else
        pure { base with msg_type := some "identity" }
    else if 5 ≤ tc ∧ tc ≤ 8 then
      let oe ← pms.oe_flag msg
      let d := { base.data with cpr_odd_flag := some oe,
                                cpr_frame_type := some (if oe then "odd" else "even") }
      pure { base with msg_type := some "surface_position", data := d }
    else if 9 ≤ tc ∧ tc ≤ 18 then
      let altv ← pms.adsb_altitude msg
      let oe ← pms.oe_flag msg
      let d := { base.data with altitude := altv, cpr_odd_flag := some oe,
                                cpr_frame_type := some (if oe then "odd" else "even") }
      pure { base with msg_type := some "position", data := d }
    else if tc = 19 then
      let vel ← pms.adsb_velocity msg
      match vel with
      | some (spd, hdg, vr, vt) =>
        let d := base.data
        let d := match spd with | some v => { d with speed := some v } | none => d
        let d := match hdg with | some v => { d with heading := some v } | none => d
        let d := match vr with | some v => { d with vertical_rate := some v } | none => d
        let d := match vt with
          | some t => if t != "" then { d with velocity_type := some t } else d
          | none => d
        pure { base with msg_type := some "velocity", data := d }
      | none => pure { base with msg_type := some "velocity" }
    else if 20 ≤ tc ∧ tc ≤ 22 then
      let altv ← pms.adsb_altitude msg
      let oe ← pms.oe_flag msg
      let d := { base.data with altitude := altv, cpr_odd_flag := some oe,
                                cpr_frame_type := some (if oe then "odd" else "even") }
      pure { base with msg_type := some "position_gnss", data := d }
    else if tc = 28 then
      let d := match pms.emergency_state msg with
        | .ok v => { base.data with emergency_state := some v }
        | .error _ => base.data
      let d := match pms.emergency_squawk msg with
        | .ok v => { d with emergency_squawk := some v }
        | .error _ => d
      pure { base with msg_type := some "status", data := d }
    else if tc = 29 then
      pure { base with msg_type := some "target_state" }
    else if tc = 31 then
      pure { base with msg_type := some "operation_status" }
    else
      pure { base with msg_type := some "adsb_other",
                       data := { base.data with typecode := some tc } }
  else if df = 0 then
    let altv ← pms.altcode msg
    pure { base with msg_type := some "short_acas",
                     data := { base.data with altitude := altv } }
  else if df = 4 ∨ df = 5 then
    if df = 4 then
      let d := match pms.altcode msg with
        | .ok v => { base.data with altitude := v }
        | .error _ => base.data
      pure { base with msg_type := some "surveillance_alt", data := d }
    else
      let d := match pms.idcode msg with
        | .ok v => { base.data with squawk := v }
        | .error _ => base.data
      pure { base with msg_type := some "surveillance_identity", data := d }
  else if df = 11 then
    pure { base with msg_type := some "all_call" }
  else if df = 16 then
    let altv ← pms.altcode msg
    pure { base with msg_type := some "long_acas",
                     data := { base.data with altitude := altv } }
  else if df = 20 ∨ df = 21 then
    let altv ← pms.altcode msg
    pure { base with msg_type := some "commb_alt",
                     data := { base.data with altitude := altv } }
  else
    pure { base with msg_type := some "unknown_df",
                     data := { base.data with df := some df } }

/-- Result of `decode_message`: the decoded dict or the error dict. -/
inductive DecodeResult where
  | ok (d : DecodedMsg)
  | error (e : String)
  deriving Repr, DecidableEq

/-- `decode_message`: strip markers, run the body, and convert any raised
exception into an error value (re-probing `pms.df` for a richer text, as
the source's `except` clause does). -/
def decode_message (pms : PMS) (raw : String) : DecodeResult :=
  let msg := strip_frame_markers raw
  match decode_body pms msg with
  | .ok d => DecodeResult.ok d
  | .error e =>
    match pms.df msg with
    | .ok df =>
      DecodeResult.error
        ("Error decoding message " ++ msg ++ " (DF=" ++ toString df ++ "): " ++ e)
    | .error _ =>
      DecodeResult.error ("Error decoding message " ++ msg ++ ": " ++ e)

/-- One iteration of `consume_ten_ninty_stream`'s loop (lines 45-62),
without the periodic-cleanup cadence: skip non-frame lines, decode, skip
on an error value, otherwise ingest; emit the record when complete. -/
def consume_line (pms : PMS) (resolver : Resolver) (now : Int)
    (st : SeenAircraft) (line0 : String) : SeenAircraft × Option AircraftState :=
  let line := py_strip line0
  if line == "" || !str_startswith line "*" then (st, none)
  else
    match decode_message pms line with
    | .error _ => (st, none)
    | .ok d =>
      let r := st.update_from_decoded_message resolver now d
      match r.2 with
      | some a => if a.is_complete then (r.1, some a) else (r.1, none)
      | none => (r.1, none)

/-! ## Basic registry lemmas -/

theorem lookupAircraft_set_self (l : List (String × AircraftState)) (k : String)
    (a : AircraftState) : lookupAircraft (setAircraft l k a) k = some a := by
  induction l with
  | nil => simp [setAircraft, lookupAircraft]
  | cons p t ih =>
    by_cases h : p.1 = k
    · simp [setAircraft, h, lookupAircraft]
    · simp only [setAircraft, beq_iff_eq, h, if_false]
      simpa [lookupAircraft, List.find?_cons_of_neg, h] using ih

theorem lookupAircraft_set_ne (l : List (String × AircraftState)) (k k2 : String)
    (a : AircraftState) (h : k2 ≠ k) :
    lookupAircraft (setAircraft l k a) k2 = lookupAircraft l k2 := by
  induction l with
  | nil =>
    have hb : (k == k2) = false := beq_eq_false_iff_ne.mpr (Ne.symm h)
    simp [setAircraft, lookupAircraft, List.find?, hb]
  | cons p t ih =>
    by_cases hp : p.1 = k
    · subst hp
      simp [setAircraft, lookupAircraft, List.find?_cons_of_neg, Ne.symm h]
    · simp only [setAircraft, beq_iff_eq, hp, if_false]
      by_cases hp2 : p.1 = k2
      · simp [lookupAircraft, List.find?_cons_of_pos, hp2]
      · simpa [lookupAircraft, List.find?_cons_of_neg, hp2] using ih

/-! ## C2: the completeness predicate -/

/-- C2: `is_complete` is true exactly when callsign, latitude, longitude,
altitude, ground speed, heading and vertical rate are all set; the
velocity type is not consulted (replacing it never changes the answer).
As a Lean function of the record, it is pure by construction. -/
theorem is_complete_iff_fields_set (a : AircraftState) :
    (a.is_complete = true ↔
      (a.callsign.isSome = true ∧ a.lat.isSome = true ∧ a.lon.isSome = true ∧
       a.alt.isSome = true ∧ a.speed.isSome = true ∧ a.heading.isSome = true ∧
       a.vertical_rate.isSome = true)) ∧
    (∀ vt, ({ a with velocity_type := vt } : AircraftState).is_complete = a.is_complete) := by
  constructor
  · simp [AircraftState.is_complete, Bool.and_eq_true, and_assoc]
  · intro vt
    rfl

/-! ## C7 and C10: identity-category messages -/

/-- C7: an identity message whose callsign field is present but empty is a
complete no-op on the record (not even the timestamp or counter moves);
with a non-empty callsign the field is set and the timestamp/counter
refresh exactly once. -/
theorem identity_callsign_effect (r : Resolver) (now : Int) (a : AircraftState)
    (m : DecodedMsg) (hm : m.msg_type = some "identity") :
    (m.data.callsign = some "" → SeenAircraft.dispatch_message r now a m = a) ∧
    (∀ c, m.data.callsign = some c → c ≠ "" →
      SeenAircraft.dispatch_message r now a m =
        { a with callsign := some c, last_seen := now,
                 message_count := a.message_count + 1 }) := by
  constructor
  · intro hc
    simp [SeenAircraft.dispatch_message, hm, hc, AircraftState.set_callsign, pyTruthyStr]
  · intro c hc hne
    simp [SeenAircraft.dispatch_message, hm, hc, AircraftState.set_callsign, pyTruthyStr,
      hne, AircraftState.update_timestamp]

/-- Witness for C7: concrete no-op on a concrete record. -/
def aW7 : AircraftState := AircraftState.create "C0FFEE" 100

def mW7 : DecodedMsg :=
  { icao := some "C0FFEE", msg_type := some "identity", data := { callsign := some "" } }

theorem identity_callsign_effect_witness :
    SeenAircraft.dispatch_message (fun _ _ _ _ => .ok none) 101 aW7 mW7 = aW7 :=
  (identity_callsign_effect (fun _ _ _ _ => .ok none) 101 aW7 mW7 rfl).1 rfl

/-- C10: an identity message with no callsign key at all falls through to
the catch-all branch: the timestamp refreshes and the counter increments
exactly once, and nothing else changes. -/
theorem identity_without_callsign_counts (r : Resolver) (now : Int) (a : AircraftState)
    (m : DecodedMsg) (h1 : m.msg_type = some "identity") (h2 : m.data.callsign = none) :
    SeenAircraft.dispatch_message r now a m =
      { a with last_seen := now, message_count := a.message_count + 1 } := by
  simp [SeenAircraft.dispatch_message, h1, h2, AircraftState.update_timestamp]

def mW10 : DecodedMsg := { icao := some "C0FFEE", msg_type := some "identity" }

theorem identity_without_callsign_counts_witness :
    SeenAircraft.dispatch_message (fun _ _ _ _ => .ok none) 101 aW7 mW10 =
      { aW7 with last_seen := 101, message_count := aW7.message_count + 1 } :=
  identity_without_callsign_counts (fun _ _ _ _ => .ok none) 101 aW7 mW10 rfl rfl

/-! ## C8: the eviction pass -/

/-- C8: after one eviction pass at time `now`, a record is in the registry
iff it was there before and satisfies `now - last_seen <= threshold`
(records at or below the threshold are kept untouched — the very same
record remains); every record that was removed satisfied
`now - last_seen > threshold` at call time. -/
theorem cleanup_membership (now : Int) (st : SeenAircraft) :
    (∀ k a, (k, a) ∈ (st.cleanup_old_aircraft now).aircraft ↔
      ((k, a) ∈ st.aircraft ∧ now - a.last_seen ≤ st.cleanup_threshold_seconds)) ∧
    (∀ k a, (k, a) ∈ st.aircraft → (k, a) ∉ (st.cleanup_old_aircraft now).aircraft →
      now - a.last_seen > st.cleanup_threshold_seconds) := by
  constructor
  · intro k a
    simp [SeenAircraft.cleanup_old_aircraft, List.mem_filter]
  · intro k a hmem hnot
    by_contra hle
    push_neg at hle
    refine hnot ?_
    simp only [SeenAircraft.cleanup_old_aircraft, List.mem_filter]
    exact ⟨hmem, by simpa using hle⟩

def aOldW : AircraftState := AircraftState.create "OLD111" 0

def aNewW : AircraftState := AircraftState.create "NEW222" 350

def stW : SeenAircraft :=
  { aircraft := [("OLD111", aOldW), ("NEW222", aNewW)], cleanup_threshold_seconds := 300 }

theorem cleanup_membership_witness :
    (("NEW222", aNewW) ∈ (stW.cleanup_old_aircraft 400).aircraft) ∧
    (("OLD111", aOldW) ∉ (stW.cleanup_old_aircraft 400).aircraft) := by
  constructor
  · exact ((cleanup_membership 400 stW).1 "NEW222" aNewW).mpr (by constructor <;> decide)
  · intro hmem
    have h := ((cleanup_membership 400 stW).1 "OLD111" aOldW).mp hmem
    exact absurd h.2 (by decide)

/-! ## C1: the ingest contract -/

/-- C1: for a message carrying an aircraft key, `update_from_decoded_message`
always leaves a record stored under that key, and it returns exactly that
record if and only if the record is complete immediately after the message
is applied (so a record that stays complete is returned again on every
subsequent message). -/
theorem ingest_returns_record_iff_complete (r : Resolver) (now : Int) (st : SeenAircraft)
    (m : DecodedMsg) (k : String) (hk : m.icao = some k) :
    ∃ a, lookupAircraft (st.update_from_decoded_message r now m).1.aircraft k = some a ∧
      (st.update_from_decoded_message r now m).2 =
        (if a.is_complete then some a else none) := by
  unfold SeenAircraft.update_from_decoded_message
  rw [hk]
  exact ⟨_, lookupAircraft_set_self _ _ _, rfl⟩

/-- A resolver that always succeeds with a fixed position, used by the
concrete instantiations below. -/
def res0 : Resolver := fun _ _ _ _ => .ok (some (37, -122))

def mIdW : DecodedMsg :=
  { icao := some "AB", msg_type := some "identity", data := { callsign := some "UAL123" } }

def mPosEW : DecodedMsg :=
  { msg := some "EVENFRAME", icao := some "AB", msg_type := some "position",
    data := { altitude := some 35000, cpr_odd_flag := some false } }

def mPosOW : DecodedMsg :=
  { msg := some "ODDFRAME", icao := some "AB", msg_type := some "position",
    data := { altitude := some 35000, cpr_odd_flag := some true } }

def mVelW : DecodedMsg :=
  { icao := some "AB", msg_type := some "velocity",
    data := { speed := some 450, heading := some 270, vertical_rate := some 0 } }

/-- Registry after identity, even position, odd position (2s apart, so the
resolver fires) and velocity messages for one key: the record is complete. -/
def stC : SeenAircraft := run_messages res0 {} [(0, mIdW), (1, mPosEW), (3, mPosOW), (4, mVelW)]

/-- The record stored under "AB" after one more velocity message at t = 5. -/
def aC5 : AircraftState :=
  { icao := "AB", callsign := some "UAL123", lat := some 37, lon := some (-122),
    alt := some 35000, speed := some 450, heading := some 270, vertical_rate := some 0,
    velocity_type := none, cpr_even := some ("EVENFRAME", 1), cpr_odd := some ("ODDFRAME", 3),
    first_seen := 0, last_seen := 5, message_count := 10 }

/-- Witness for C1: a complete record is returned again on a subsequent
message, and it is exactly the record stored in the registry. -/
theorem ingest_returns_record_iff_complete_witness :
    (stC.update_from_decoded_message res0 5 mVelW).2 = some aC5 := by
  obtain ⟨a, h1, h2⟩ := ingest_returns_record_iff_complete res0 5 stC mVelW "AB" rfl
  have hval : lookupAircraft (stC.update_from_decoded_message res0 5 mVelW).1.aircraft "AB" =
      some aC5 := by decide
  have ha : a = aC5 := Option.some.inj ((hval.symm.trans h1).symm)
  subst ha
  rw [h2]
  decide

/-! ## C3: the position-pairing window -/

/-- Well-formed buffers: any stored CPR frame text is non-empty.  Every
frame reaches the buffers through the `if raw_msg:` guard of the registry,
so this holds in all reachable states. -/
def frames_wf (a : AircraftState) : Bool :=
  (match a.cpr_even with | some p => p.1 != "" | none => true) &&
  (match a.cpr_odd with | some p => p.1 != "" | none => true)

theorem cpr_buffer_state_latlon (now : Int) (a : AircraftState) (raw : String)
    (alt : Option Int) (oddf : Bool) :
    (cpr_buffer_state now a raw alt oddf).lat = a.lat ∧
    (cpr_buffer_state now a raw alt oddf).lon = a.lon := by
  unfold cpr_buffer_state AircraftState.update_timestamp
  cases alt <;> cases oddf <;> simp

theorem cpr_buffer_state_even (now : Int) (a : AircraftState) (raw : String)
    (alt : Option Int) (oddf : Bool) :
    (cpr_buffer_state now a raw alt oddf).cpr_even =
      (if oddf then a.cpr_even else some (raw, now)) := by
  unfold cpr_buffer_state AircraftState.update_timestamp
  cases alt <;> cases oddf <;> simp

theorem cpr_buffer_state_odd (now : Int) (a : AircraftState) (raw : String)
    (alt : Option Int) (oddf : Bool) :
    (cpr_buffer_state now a raw alt oddf).cpr_odd =
      (if oddf then some (raw, now) else a.cpr_odd) := by
  unfold cpr_buffer_state AircraftState.update_timestamp
  cases alt <;> cases oddf <;> simp

/-- C3: on a position-frame arrival the resolver is consulted exactly when
both parity buffers are populated and their capture times differ by
strictly less than 10 seconds.  When both buffers hold frames within the
window, the outcome is literally a case split on the resolver's answer;
when the window check fails, or a buffer is empty, the result is the same
for every resolver (it is never invoked) and the result equals the plain
buffered state — in particular latitude/longitude keep their prior values
(first conjunct), so a pair 12 seconds apart never writes a position. -/
theorem position_resolver_window (r : Resolver) (now : Int) (a : AircraftState)
    (raw : String) (alt : Option Int) (oddf : Bool)
    (hwf : frames_wf a = true) (hraw : raw ≠ "") :
    ((cpr_buffer_state now a raw alt oddf).lat = a.lat ∧
     (cpr_buffer_state now a raw alt oddf).lon = a.lon) ∧
    (∀ ef et og ot,
      (cpr_buffer_state now a raw alt oddf).cpr_even = some (ef, et) →
      (cpr_buffer_state now a raw alt oddf).cpr_odd = some (og, ot) →
      (((et - ot).natAbs < 10 →
          AircraftState.update_position_from_message r now a raw alt oddf =
            (match r ef og et ot with
             | .ok (some p) =>
               ({ cpr_buffer_state now a raw alt oddf with
                   lat := some p.1, lon := some p.2 }, true)
             | .ok none => (cpr_buffer_state now a raw alt oddf, false)
             | .error _ => (cpr_buffer_state now a raw alt oddf, false))) ∧
        (¬ (et - ot).natAbs < 10 →
          ∀ r2 : Resolver,
            AircraftState.update_position_from_message r2 now a raw alt oddf =
              (cpr_buffer_state now a raw alt oddf, false)))) ∧
    (((cpr_buffer_state now a raw alt oddf).cpr_even = none ∨
      (cpr_buffer_state now a raw alt oddf).cpr_odd = none) →
      ∀ r2 : Resolver,
        AircraftState.update_position_from_message r2 now a raw alt oddf =
          (cpr_buffer_state now a raw alt oddf, false)) := by
  have hwf1 : ∀ p, a.cpr_even = some p → p.1 ≠ "" := by
    intro p hp
    have h := hwf
    unfold frames_wf at h
    rw [hp] at h
    simp [bne_iff_ne] at h
    exact h.1
  have hwf2 : ∀ p, a.cpr_odd = some p → p.1 ≠ "" := by
    intro p hp
    have h := hwf
    unfold frames_wf at h
    rw [hp] at h
    simp [bne_iff_ne] at h
    exact h.2
  have hef : ∀ p, (cpr_buffer_state now a raw alt oddf).cpr_even = some p → p.1 ≠ "" := by
    intro p hp
    rw [cpr_buffer_state_even] at hp
    cases oddf with
    | true => exact hwf1 p (by simpa using hp)
    | false =>
      simp at hp
      rw [← hp]
      exact hraw
  have hog : ∀ p, (cpr_buffer_state now a raw alt oddf).cpr_odd = some p → p.1 ≠ "" := by
    intro p hp
    rw [cpr_buffer_state_odd] at hp
    cases oddf with
    | false => exact hwf2 p (by simpa using hp)
    | true =>
      simp at hp
      rw [← hp]
      exact hraw
  refine ⟨cpr_buffer_state_latlon now a raw alt oddf, ?_, ?_⟩
  · intro ef et og ot h1 h2
    have hne : (ef != "" && og != "") = true := by
      simp only [Bool.and_eq_true, bne_iff_ne, ne_eq]
      exact ⟨hef (ef, et) h1, hog (og, ot) h2⟩
    constructor
    · intro hlt
      simp only [AircraftState.update_position_from_message]
      rw [h1, h2]
      simp only [hne, if_true, hlt, if_pos]
      cases hr : r ef og et ot with
      | error e => simp
      | ok v => cases v <;> simp
    · intro hge r2
      simp only [AircraftState.update_position_from_message]
      rw [h1, h2]
      simp [hne, hge]
  · intro hcase r2
    simp only [AircraftState.update_position_from_message]
    rcases hcase with h | h
    · rw [h]
    · rw [h]
      cases heven : (cpr_buffer_state now a raw alt oddf).cpr_even <;> simp

/-- Record holding only an even frame captured at t = 0. -/
def aE3 : AircraftState := { AircraftState.create "AB" 0 with cpr_even := some ("EVENFRAME", 0) }

/-- Witness for C3: the matching odd frame arriving 12 seconds later does
not invoke the resolver and leaves latitude/longitude absent. -/
theorem position_resolver_window_witness :
    AircraftState.update_position_from_message res0 12 aE3 "ODDFRAME" none true =
      (cpr_buffer_state 12 aE3 "ODDFRAME" none true, false) ∧
    (cpr_buffer_state 12 aE3 "ODDFRAME" none true).lat = none := by
  have h := position_resolver_window res0 12 aE3 "ODDFRAME" none true (by decide) (by decide)
  refine ⟨(h.2.1 "EVENFRAME" 0 "ODDFRAME" 12 rfl rfl).2 (by decide) res0, by decide⟩

/-! ## Effect lemmas for the position update and the dispatch branches -/

theorem cpr_buffer_state_scalars (now : Int) (a : AircraftState) (raw : String)
    (alt : Option Int) (oddf : Bool) :
    (cpr_buffer_state now a raw alt oddf).callsign = a.callsign ∧
    (cpr_buffer_state now a raw alt oddf).speed = a.speed ∧
    (cpr_buffer_state now a raw alt oddf).heading = a.heading ∧
    (cpr_buffer_state now a raw alt oddf).vertical_rate = a.vertical_rate ∧
    (cpr_buffer_state now a raw alt oddf).velocity_type = a.velocity_type ∧
    (cpr_buffer_state now a raw alt oddf).message_count = a.message_count + 1 ∧
    (cpr_buffer_state now a raw alt oddf).alt =
      (match alt with | some v => some v | none => a.alt) := by
  unfold cpr_buffer_state AircraftState.update_timestamp
  cases alt <;> cases oddf <;> simp

/-- The position update either leaves the buffered state as is or writes
both coordinates at once. -/
theorem upm_cases (r : Resolver) (now : Int) (a : AircraftState) (raw : String)
    (alt : Option Int) (oddf : Bool) :
    (AircraftState.update_position_from_message r now a raw alt oddf).1 =
        cpr_buffer_state now a raw alt oddf ∨
    ∃ la lo, (AircraftState.update_position_from_message r now a raw alt oddf).1 =
        { cpr_buffer_state now a raw alt oddf with lat := some la, lon := some lo } := by
  simp only [AircraftState.update_position_from_message]
  cases he : (cpr_buffer_state now a raw alt oddf).cpr_even with
  | none => left; rfl
  | some pe =>
    cases ho : (cpr_buffer_state now a raw alt oddf).cpr_odd with
    | none => left; rfl
    | some po =>
      obtain ⟨ef, et⟩ := pe
      obtain ⟨og, ot⟩ := po
      dsimp only
      by_cases h1 : (ef != "" && og != "") = true
      · by_cases h2 : (et - ot).natAbs < 10
        · rw [if_pos h1, if_pos h2]
          cases hr : r ef og et ot with
          | error e => left; rfl
          | ok v =>
            cases v with
            | none => left; rfl
            | some p => right; exact ⟨p.1, p.2, rfl⟩
        · rw [if_pos h1, if_neg h2]
          left; rfl
      · rw [if_neg h1]
        left; rfl

theorem upm_message_count (r : Resolver) (now : Int) (a : AircraftState) (raw : String)
    (alt : Option Int) (oddf : Bool) :
    (AircraftState.update_position_from_message r now a raw alt oddf).1.message_count =
      a.message_count + 1 := by
  rcases upm_cases r now a raw alt oddf with h | ⟨la, lo, h⟩ <;> rw [h] <;>
    simp [(cpr_buffer_state_scalars now a raw alt oddf).2.2.2.2.2.1]

theorem dispatch_identity_eq (r : Resolver) (now : Int) (a : AircraftState) (m : DecodedMsg)
    (h : m.msg_type = some "identity" ∧ m.data.callsign.isSome) :
    SeenAircraft.dispatch_message r now a m = a.set_callsign now m.data.callsign := by
  simp only [SeenAircraft.dispatch_message]
  rw [if_pos h]

theorem dispatch_airborne_eq (r : Resolver) (now : Int) (a : AircraftState) (m : DecodedMsg)
    (raw : String)
    (hid : ¬ (m.msg_type = some "identity" ∧ m.data.callsign.isSome))
    (hair : m.msg_type = some "position" ∨ m.msg_type = some "position_gnss")
    (hmsg : m.msg = some raw) (hraw : (raw != "") = true) :
    SeenAircraft.dispatch_message r now a m =
      (a.update_position_from_message r now raw m.data.altitude
        (m.data.cpr_odd_flag.getD false)).1 := by
  have hpos : m.msg_type = some "position" ∨ m.msg_type = some "position_gnss" ∨
      m.msg_type = some "surface_position" := by
    rcases hair with h | h
    · exact Or.inl h
    · exact Or.inr (Or.inl h)
  simp only [SeenAircraft.dispatch_message]
  rw [if_neg hid, if_pos hpos, hmsg]
  dsimp only
  rw [if_pos hraw, if_pos hair]

theorem dispatch_surface_eq (r : Resolver) (now : Int) (a : AircraftState) (m : DecodedMsg)
    (raw : String)
    (hid : ¬ (m.msg_type = some "identity" ∧ m.data.callsign.isSome))
    (hsurf : m.msg_type = some "surface_position")
    (hmsg : m.msg = some raw) (hraw : (raw != "") = true) :
    SeenAircraft.dispatch_message r now a m =
      (match m.data.altitude with
       | some v => ({ a with alt := some v }).update_timestamp now
       | none => a.update_timestamp now) := by
  have hpos : m.msg_type = some "position" ∨ m.msg_type = some "position_gnss" ∨
      m.msg_type = some "surface_position" := Or.inr (Or.inr hsurf)
  have hair : ¬ (m.msg_type = some "position" ∨ m.msg_type = some "position_gnss") := by
    simp [hsurf]
  simp only [SeenAircraft.dispatch_message]
  rw [if_neg hid, if_pos hpos, hmsg]
  dsimp only
  rw [if_pos hraw, if_neg hair]

theorem dispatch_position_noraw_eq (r : Resolver) (now : Int) (a : AircraftState)
    (m : DecodedMsg)
    (hid : ¬ (m.msg_type = some "identity" ∧ m.data.callsign.isSome))
    (hpos : m.msg_type = some "position" ∨ m.msg_type = some "position_gnss" ∨
      m.msg_type = some "surface_position")
    (hmsg : m.msg = none ∨ ∃ raw, m.msg = some raw ∧ (raw != "") = false) :
    SeenAircraft.dispatch_message r now a m = a.update_timestamp now := by
  simp only [SeenAircraft.dispatch_message]
  rw [if_neg hid, if_pos hpos]
  rcases hmsg with h | ⟨raw, h, hraw⟩
  · rw [h]
  · rw [h]
    dsimp only
    rw [if_neg (by simp [hraw])]

theorem dispatch_velocity_eq (r : Resolver) (now : Int) (a : AircraftState) (m : DecodedMsg)
    (hid : ¬ (m.msg_type = some "identity" ∧ m.data.callsign.isSome))
    (hvel : m.msg_type = some "velocity") :
    SeenAircraft.dispatch_message r now a m =
      (let a1 := if m.data.speed.isSome then a.set_speed now m.data.speed else a
       let a2 := if m.data.heading.isSome then a1.set_heading now m.data.heading else a1
       let a3 := if m.data.vertical_rate.isSome then
         a2.set_vertical_rate now m.data.vertical_rate else a2
       let a4 := if m.data.velocity_type.isSome then
         a3.set_velocity_type now m.data.velocity_type else a3
       if !(m.data.speed.isSome || m.data.heading.isSome ||
            m.data.vertical_rate.isSome || m.data.velocity_type.isSome) then
         a4.update_timestamp now
       else a4) := by
  have hpos : ¬ (m.msg_type = some "position" ∨ m.msg_type = some "position_gnss" ∨
      m.msg_type = some "surface_position") := by simp [hvel]
  simp only [SeenAircraft.dispatch_message]
  rw [if_neg hid, if_neg hpos, if_pos hvel]

theorem dispatch_surveillance_eq (r : Resolver) (now : Int) (a : AircraftState)
    (m : DecodedMsg)
    (hid : ¬ (m.msg_type = some "identity" ∧ m.data.callsign.isSome))
    (hsurv : m.msg_type = some "surveillance_alt" ∨ m.msg_type = some "commb_alt" ∨
      m.msg_type = some "short_acas" ∨ m.msg_type = some "long_acas") :
    SeenAircraft.dispatch_message r now a m =
      (match m.data.altitude with
       | some v => ({ a with alt := some v }).update_timestamp now
       | none => a.update_timestamp now) := by
  have hpos : ¬ (m.msg_type = some "position" ∨ m.msg_type = some "position_gnss" ∨
      m.msg_type = some "surface_position") := by
    rcases hsurv with h | h | h | h <;> simp [h]
  have hvel : ¬ m.msg_type = some "velocity" := by
    rcases hsurv with h | h | h | h <;> simp [h]
  simp only [SeenAircraft.dispatch_message]
  rw [if_neg hid, if_neg hpos, if_neg hvel, if_pos hsurv]

theorem dispatch_other_eq (r : Resolver) (now : Int) (a : AircraftState) (m : DecodedMsg)
    (hid : ¬ (m.msg_type = some "identity" ∧ m.data.callsign.isSome))
    (hpos : ¬ (m.msg_type = some "position" ∨ m.msg_type = some "position_gnss" ∨
      m.msg_type = some "surface_position"))
    (hvel : ¬ m.msg_type = some "velocity")
    (hsurv : ¬ (m.msg_type = some "surveillance_alt" ∨ m.msg_type = some "commb_alt" ∨
      m.msg_type = some "short_acas" ∨ m.msg_type = some "long_acas")) :
    SeenAircraft.dispatch_message r now a m = a.update_timestamp now := by
  simp only [SeenAircraft.dispatch_message]
  rw [if_neg hid, if_neg hpos, if_neg hvel, if_neg hsurv]
  by_cases hsi : m.msg_type = some "surveillance_identity"
  · rw [if_pos hsi]
  · rw [if_neg hsi]

/-- Per-message increment of the counter as the dispatch code actually
performs it: one tick per branch, except that a velocity message ticks
once per sub-field it sets (each property setter refreshes the counter),
and an identity message with a present-but-empty callsign ticks zero. -/
def count_increment (m : DecodedMsg) : Nat :=
  if m.msg_type = some "identity" ∧ m.data.callsign.isSome then
    match m.data.callsign with
    | some c => if c = "" then 0 else 1
    | none => 1
  else if m.msg_type = some "velocity" then
    let k := (if m.data.speed.isSome then 1 else 0) + (if m.data.heading.isSome then 1 else 0) +
             (if m.data.vertical_rate.isSome then 1 else 0) +
             (if m.data.velocity_type.isSome then 1 else 0)
    if k = 0 then 1 else k
  else 1

theorem dispatch_count (r : Resolver) (now : Int) (a : AircraftState) (m : DecodedMsg) :
    (SeenAircraft.dispatch_message r now a m).message_count =
      a.message_count + count_increment m := by
  by_cases hid : m.msg_type = some "identity" ∧ m.data.callsign.isSome
  · rw [dispatch_identity_eq r now a m hid]
    obtain ⟨hmt, hcs⟩ := hid
    cases hc : m.data.callsign with
    | none => rw [hc] at hcs; simp at hcs
    | some c =>
      by_cases hce : c = ""
      · subst hce
        simp [count_increment, hmt, hc, AircraftState.set_callsign, pyTruthyStr]
      · simp [count_increment, hmt, hc, hce, AircraftState.set_callsign, pyTruthyStr,
          AircraftState.update_timestamp]
  · by_cases hpos : m.msg_type = some "position" ∨ m.msg_type = some "position_gnss" ∨
        m.msg_type = some "surface_position"
    · have hvel : ¬ m.msg_type = some "velocity" := by rcases hpos with h | h | h <;> simp [h]
      have hinc : count_increment m = 1 := by
        simp only [count_increment]
        rw [if_neg hid, if_neg hvel]
      rw [hinc]
      cases hmsg : m.msg with
      | none =>
        rw [dispatch_position_noraw_eq r now a m hid hpos (Or.inl hmsg)]
        simp [AircraftState.update_timestamp]
      | some raw =>
        by_cases hraw : (raw != "") = true
        · rcases hpos with h | h | h
          · rw [dispatch_airborne_eq r now a m raw hid (Or.inl h) hmsg hraw]
            exact upm_message_count r now a raw m.data.altitude (m.data.cpr_odd_flag.getD false)
          · rw [dispatch_airborne_eq r now a m raw hid (Or.inr h) hmsg hraw]
            exact upm_message_count r now a raw m.data.altitude (m.data.cpr_odd_flag.getD false)
          · rw [dispatch_surface_eq r now a m raw hid h hmsg hraw]
            cases m.data.altitude <;> simp [AircraftState.update_timestamp]
        · have hraw2 : (raw != "") = false := by simpa using hraw
          rw [dispatch_position_noraw_eq r now a m hid hpos (Or.inr ⟨raw, hmsg, hraw2⟩)]
          simp [AircraftState.update_timestamp]
    · by_cases hvel : m.msg_type = some "velocity"
      · rw [dispatch_velocity_eq r now a m hid hvel]
        simp only [count_increment]
        rw [if_neg hid, if_pos hvel]
        cases h1 : m.data.speed.isSome <;> cases h2 : m.data.heading.isSome <;>
          cases h3 : m.data.vertical_rate.isSome <;> cases h4 : m.data.velocity_type.isSome <;>
          simp [h1, h2, h3, h4, AircraftState.set_speed, AircraftState.set_heading,
            AircraftState.set_vertical_rate, AircraftState.set_velocity_type,
            AircraftState.update_timestamp]
      · by_cases hsurv : m.msg_type = some "surveillance_alt" ∨ m.msg_type = some "commb_alt" ∨
            m.msg_type = some "short_acas" ∨ m.msg_type = some "long_acas"
        · rw [dispatch_surveillance_eq r now a m hid hsurv]
          have hinc : count_increment m = 1 := by
            simp only [count_increment]
            rw [if_neg hid, if_neg hvel]
          rw [hinc]
          cases m.data.altitude <;> simp [AircraftState.update_timestamp]
        · rw [dispatch_other_eq r now a m hid hpos hvel hsurv]
          have hinc : count_increment m = 1 := by
            simp only [count_increment]
            rw [if_neg hid, if_neg hvel]
          rw [hinc]
          simp [AircraftState.update_timestamp]

theorem upm_preserves (r : Resolver) (now : Int) (a : AircraftState) (raw : String)
    (alt : Option Int) (oddf : Bool) :
    ((AircraftState.update_position_from_message r now a raw alt oddf).1.callsign =
      a.callsign) ∧
    ((AircraftState.update_position_from_message r now a raw alt oddf).1.speed = a.speed) ∧
    ((AircraftState.update_position_from_message r now a raw alt oddf).1.heading =
      a.heading) ∧
    ((AircraftState.update_position_from_message r now a raw alt oddf).1.vertical_rate =
      a.vertical_rate) ∧
    ((AircraftState.update_position_from_message r now a raw alt oddf).1.velocity_type =
      a.velocity_type) ∧
    (a.alt.isSome = true →
      (AircraftState.update_position_from_message r now a raw alt oddf).1.alt.isSome = true) ∧
    (a.lat.isSome = true →
      (AircraftState.update_position_from_message r now a raw alt oddf).1.lat.isSome = true) ∧
    (a.lon.isSome = true →
      (AircraftState.update_position_from_message r now a raw alt oddf).1.lon.isSome =
        true) := by
  obtain ⟨hcs, hsp, hhd, hvr, hvt, hmc, halt⟩ := cpr_buffer_state_scalars now a raw alt oddf
  obtain ⟨hlat, hlon⟩ := cpr_buffer_state_latlon now a raw alt oddf
  rcases upm_cases r now a raw alt oddf with h | ⟨la, lo, h⟩ <;> rw [h]
  · refine ⟨hcs, hsp, hhd, hvr, hvt, ?_, ?_, ?_⟩
    · intro ha
      rw [halt]
      cases alt <;> simp_all
    · intro ha
      rw [hlat]
      exact ha
    · intro ha
      rw [hlon]
      exact ha
  · refine ⟨by simpa using hcs, by simpa using hsp, by simpa using hhd, by simpa using hvr,
      by simpa using hvt, ?_, by simp, by simp⟩
    intro ha
    have h2 : (cpr_buffer_state now a raw alt oddf).alt.isSome = true := by
      rw [halt]
      cases alt <;> simp_all
    simpa using h2

theorem upm_pair (r : Resolver) (now : Int) (a : AircraftState) (raw : String)
    (alt : Option Int) (oddf : Bool) (h : a.lat.isSome = a.lon.isSome) :
    (AircraftState.update_position_from_message r now a raw alt oddf).1.lat.isSome =
      (AircraftState.update_position_from_message r now a raw alt oddf).1.lon.isSome := by
  obtain ⟨hlat, hlon⟩ := cpr_buffer_state_latlon now a raw alt oddf
  rcases upm_cases r now a raw alt oddf with hc | ⟨la, lo, hc⟩ <;> rw [hc]
  · rw [hlat, hlon]
    exact h
  · simp

theorem upm_odd_none (r : Resolver) (now : Int) (a : AircraftState) (raw : String)
    (alt : Option Int) (h : a.cpr_odd = none) :
    (AircraftState.update_position_from_message r now a raw alt false).1 =
      cpr_buffer_state now a raw alt false ∧
    (cpr_buffer_state now a raw alt false).cpr_odd = none := by
  have hodd : (cpr_buffer_state now a raw alt false).cpr_odd = none := by
    rw [cpr_buffer_state_odd]
    simpa using h
  refine ⟨?_, hodd⟩
  simp only [AircraftState.update_position_from_message]
  cases he : (cpr_buffer_state now a raw alt false).cpr_even with
  | none => rfl
  | some pe => rw [hodd]

theorem upm_even_none (r : Resolver) (now : Int) (a : AircraftState) (raw : String)
    (alt : Option Int) (h : a.cpr_even = none) :
    (AircraftState.update_position_from_message r now a raw alt true).1 =
      cpr_buffer_state now a raw alt true ∧
    (cpr_buffer_state now a raw alt true).cpr_even = none := by
  have heven : (cpr_buffer_state now a raw alt true).cpr_even = none := by
    rw [cpr_buffer_state_even]
    simpa using h
  refine ⟨?_, heven⟩
  simp only [AircraftState.update_position_from_message]
  rw [heven]

theorem dispatch_preserves (r : Resolver) (now : Int) (a : AircraftState) (m : DecodedMsg) :
    (a.callsign.isSome = true →
      (SeenAircraft.dispatch_message r now a m).callsign.isSome = true) ∧
    (a.lat.isSome = true → (SeenAircraft.dispatch_message r now a m).lat.isSome = true) ∧
    (a.lon.isSome = true → (SeenAircraft.dispatch_message r now a m).lon.isSome = true) ∧
    (a.alt.isSome = true → (SeenAircraft.dispatch_message r now a m).alt.isSome = true) ∧
    (a.speed.isSome = true → (SeenAircraft.dispatch_message r now a m).speed.isSome = true) ∧
    (a.heading.isSome = true →
      (SeenAircraft.dispatch_message r now a m).heading.isSome = true) ∧
    (a.vertical_rate.isSome = true →
      (SeenAircraft.dispatch_message r now a m).vertical_rate.isSome = true) := by
  by_cases hid : m.msg_type = some "identity" ∧ m.data.callsign.isSome
  · rw [dispatch_identity_eq r now a m hid]
    unfold AircraftState.set_callsign
    by_cases ht : pyTruthyStr m.data.callsign = true
    · rw [if_pos ht]
      cases hc : m.data.callsign with
      | none => simp [pyTruthyStr, hc] at ht
      | some c => simp [AircraftState.update_timestamp, hc]
    · rw [if_neg ht]
      simp
  · by_cases hpos : m.msg_type = some "position" ∨ m.msg_type = some "position_gnss" ∨
        m.msg_type = some "surface_position"
    · cases hmsg : m.msg with
      | none =>
        rw [dispatch_position_noraw_eq r now a m hid hpos (Or.inl hmsg)]
        simp [AircraftState.update_timestamp]
      | some raw =>
        by_cases hraw : (raw != "") = true
        · have hstep : ∀ hair2 : m.msg_type = some "position" ∨ m.msg_type = some "position_gnss",
              (a.callsign.isSome = true →
                (SeenAircraft.dispatch_message r now a m).callsign.isSome = true) ∧
              (a.lat.isSome = true →
                (SeenAircraft.dispatch_message r now a m).lat.isSome = true) ∧
              (a.lon.isSome = true →
                (SeenAircraft.dispatch_message r now a m).lon.isSome = true) ∧
              (a.alt.isSome = true →
                (SeenAircraft.dispatch_message r now a m).alt.isSome = true) ∧
              (a.speed.isSome = true →
                (SeenAircraft.dispatch_message r now a m).speed.isSome = true) ∧
              (a.heading.isSome = true →
                (SeenAircraft.dispatch_message r now a m).heading.isSome = true) ∧
              (a.vertical_rate.isSome = true →
                (SeenAircraft.dispatch_message r now a m).vertical_rate.isSome = true) := by
            intro hair2
            rw [dispatch_airborne_eq r now a m raw hid hair2 hmsg hraw]
            obtain ⟨hc2, hs2, hh2, hv2, hvt2, halt2, hlat2, hlon2⟩ :=
              upm_preserves r now a raw m.data.altitude (m.data.cpr_odd_flag.getD false)
            exact ⟨by simp [hc2], hlat2, hlon2, halt2, by simp [hs2], by simp [hh2],
              by simp [hv2]⟩
          rcases hpos with h | h | h
          · exact hstep (Or.inl h)
          · exact hstep (Or.inr h)
          · rw [dispatch_surface_eq r now a m raw hid h hmsg hraw]
            cases m.data.altitude <;> simp [AircraftState.update_timestamp]
        · have hraw2 : (raw != "") = false := by simpa using hraw
          rw [dispatch_position_noraw_eq r now a m hid hpos (Or.inr ⟨raw, hmsg, hraw2⟩)]
          simp [AircraftState.update_timestamp]
    · by_cases hvel : m.msg_type = some "velocity"
      · rw [dispatch_velocity_eq r now a m hid hvel]
        cases h1 : m.data.speed.isSome <;> cases h2 : m.data.heading.isSome <;>
          cases h3 : m.data.vertical_rate.isSome <;> cases h4 : m.data.velocity_type.isSome <;>
          simp [h1, h2, h3, h4, AircraftState.set_speed, AircraftState.set_heading,
            AircraftState.set_vertical_rate, AircraftState.set_velocity_type,
            AircraftState.update_timestamp]
      · by_cases hsurv : m.msg_type = some "surveillance_alt" ∨ m.msg_type = some "commb_alt" ∨
            m.msg_type = some "short_acas" ∨ m.msg_type = some "long_acas"
        · rw [dispatch_surveillance_eq r now a m hid hsurv]
          cases m.data.altitude <;> simp [AircraftState.update_timestamp]
        · rw [dispatch_other_eq r now a m hid hpos hvel hsurv]
          simp [AircraftState.update_timestamp]

theorem dispatch_pair (r : Resolver) (now : Int) (a : AircraftState) (m : DecodedMsg)
    (h : a.lat.isSome = a.lon.isSome) :
    (SeenAircraft.dispatch_message r now a m).lat.isSome =
      (SeenAircraft.dispatch_message r now a m).lon.isSome := by
  by_cases hid : m.msg_type = some "identity" ∧ m.data.callsign.isSome
  · rw [dispatch_identity_eq r now a m hid]
    unfold AircraftState.set_callsign
    by_cases ht : pyTruthyStr m.data.callsign = true
    · rw [if_pos ht]
      simpa [AircraftState.update_timestamp] using h
    · rw [if_neg ht]
      exact h
  · by_cases hpos : m.msg_type = some "position" ∨ m.msg_type = some "position_gnss" ∨
        m.msg_type = some "surface_position"
    · cases hmsg : m.msg with
      | none =>
        rw [dispatch_position_noraw_eq r now a m hid hpos (Or.inl hmsg)]
        simpa [AircraftState.update_timestamp] using h
      | some raw =>
        by_cases hraw : (raw != "") = true
        · rcases hpos with hh | hh | hh
          · rw [dispatch_airborne_eq r now a m raw hid (Or.inl hh) hmsg hraw]
            exact upm_pair r now a raw m.data.altitude (m.data.cpr_odd_flag.getD false) h
          · rw [dispatch_airborne_eq r now a m raw hid (Or.inr hh) hmsg hraw]
            exact upm_pair r now a raw m.data.altitude (m.data.cpr_odd_flag.getD false) h
          · rw [dispatch_surface_eq r now a m raw hid hh hmsg hraw]
            cases m.data.altitude <;> simpa [AircraftState.update_timestamp] using h
        · have hraw2 : (raw != "") = false := by simpa using hraw
          rw [dispatch_position_noraw_eq r now a m hid hpos (Or.inr ⟨raw, hmsg, hraw2⟩)]
          simpa [AircraftState.update_timestamp] using h
    · by_cases hvel : m.msg_type = some "velocity"
      · rw [dispatch_velocity_eq r now a m hid hvel]
        cases h1 : m.data.speed.isSome <;> cases h2 : m.data.heading.isSome <;>
          cases h3 : m.data.vertical_rate.isSome <;> cases h4 : m.data.velocity_type.isSome <;>
          simpa [h1, h2, h3, h4, AircraftState.set_speed, AircraftState.set_heading,
            AircraftState.set_vertical_rate, AircraftState.set_velocity_type,
            AircraftState.update_timestamp] using h
      · by_cases hsurv : m.msg_type = some "surveillance_alt" ∨ m.msg_type = some "commb_alt" ∨
            m.msg_type = some "short_acas" ∨ m.msg_type = some "long_acas"
        · rw [dispatch_surveillance_eq r now a m hid hsurv]
          cases m.data.altitude <;> simpa [AircraftState.update_timestamp] using h
        · rw [dispatch_other_eq r now a m hid hpos hvel hsurv]
          simpa [AircraftState.update_timestamp] using h

/-- Does this decoded message store an odd-parity CPR frame into the
buffers (airborne position type, truthy raw frame, odd flag set)? -/
def stores_odd_frame (m : DecodedMsg) : Bool :=
  (m.msg_type == some "position" || m.msg_type == some "position_gnss") &&
  (match m.msg with | some raw => raw != "" | none => false) &&
  (m.data.cpr_odd_flag.getD false)

/-- Does this decoded message store an even-parity CPR frame? -/
def stores_even_frame (m : DecodedMsg) : Bool :=
  (m.msg_type == some "position" || m.msg_type == some "position_gnss") &&
  (match m.msg with | some raw => raw != "" | none => false) &&
  !(m.data.cpr_odd_flag.getD false)

theorem dispatch_odd_none (r : Resolver) (now : Int) (a : AircraftState) (m : DecodedMsg)
    (h1 : a.cpr_odd = none) (h2 : a.lat = none) (h3 : a.lon = none)
    (hQ : stores_odd_frame m = false) :
    (SeenAircraft.dispatch_message r now a m).cpr_odd = none ∧
    (SeenAircraft.dispatch_message r now a m).lat = none ∧
    (SeenAircraft.dispatch_message r now a m).lon = none := by
  by_cases hid : m.msg_type = some "identity" ∧ m.data.callsign.isSome
  · rw [dispatch_identity_eq r now a m hid]
    unfold AircraftState.set_callsign
    by_cases ht : pyTruthyStr m.data.callsign = true
    · rw [if_pos ht]
      simp [AircraftState.update_timestamp, h1, h2, h3]
    · rw [if_neg ht]
      exact ⟨h1, h2, h3⟩
  · by_cases hpos : m.msg_type = some "position" ∨ m.msg_type = some "position_gnss" ∨
        m.msg_type = some "surface_position"
    · cases hmsg : m.msg with
      | none =>
        rw [dispatch_position_noraw_eq r now a m hid hpos (Or.inl hmsg)]
        simp [AircraftState.update_timestamp, h1, h2, h3]
      | some raw =>
        by_cases hraw : (raw != "") = true
        · have hair_case : ∀ hair2 : m.msg_type = some "position" ∨
              m.msg_type = some "position_gnss",
              (SeenAircraft.dispatch_message r now a m).cpr_odd = none ∧
              (SeenAircraft.dispatch_message r now a m).lat = none ∧
              (SeenAircraft.dispatch_message r now a m).lon = none := by
            intro hair2
            have hflag : m.data.cpr_odd_flag.getD false = false := by
              rcases hair2 with hh | hh <;>
                simpa [stores_odd_frame, hh, hmsg, hraw] using hQ
            rw [dispatch_airborne_eq r now a m raw hid hair2 hmsg hraw, hflag]
            obtain ⟨hu, hbodd⟩ := upm_odd_none r now a raw m.data.altitude h1
            rw [hu]
            obtain ⟨hlat, hlon⟩ := cpr_buffer_state_latlon now a raw m.data.altitude false
            rw [hlat, hlon]
            exact ⟨hbodd, h2, h3⟩
          rcases hpos with hh | hh | hh
          · exact hair_case (Or.inl hh)
          · exact hair_case (Or.inr hh)
          · rw [dispatch_surface_eq r now a m raw hid hh hmsg hraw]
            cases m.data.altitude <;> simp [AircraftState.update_timestamp, h1, h2, h3]
        · have hraw2 : (raw != "") = false := by simpa using hraw
          rw [dispatch_position_noraw_eq r now a m hid hpos (Or.inr ⟨raw, hmsg, hraw2⟩)]
          simp [AircraftState.update_timestamp, h1, h2, h3]
    · by_cases hvel : m.msg_type = some "velocity"
      · rw [dispatch_velocity_eq r now a m hid hvel]
        cases hb1 : m.data.speed.isSome <;> cases hb2 : m.data.heading.isSome <;>
          cases hb3 : m.data.vertical_rate.isSome <;> cases hb4 : m.data.velocity_type.isSome <;>
          simp [hb1, hb2, hb3, hb4, AircraftState.set_speed, AircraftState.set_heading,
            AircraftState.set_vertical_rate, AircraftState.set_velocity_type,
            AircraftState.update_timestamp, h1, h2, h3]
      · by_cases hsurv : m.msg_type = some "surveillance_alt" ∨ m.msg_type = some "commb_alt" ∨
            m.msg_type = some "short_acas" ∨ m.msg_type = some "long_acas"
        · rw [dispatch_surveillance_eq r now a m hid hsurv]
          cases m.data.altitude <;> simp [AircraftState.update_timestamp, h1, h2, h3]
        · rw [dispatch_other_eq r now a m hid hpos hvel hsurv]
          simp [AircraftState.update_timestamp, h1, h2, h3]

theorem dispatch_even_none (r : Resolver) (now : Int) (a : AircraftState) (m : DecodedMsg)
    (h1 : a.cpr_even = none) (h2 : a.lat = none) (h3 : a.lon = none)
    (hQ : stores_even_frame m = false) :
    (SeenAircraft.dispatch_message r now a m).cpr_even = none ∧
    (SeenAircraft.dispatch_message r now a m).lat = none ∧
    (SeenAircraft.dispatch_message r now a m).lon = none := by
  by_cases hid : m.msg_type = some "identity" ∧ m.data.callsign.isSome
  · rw [dispatch_identity_eq r now a m hid]
    unfold AircraftState.set_callsign
    by_cases ht : pyTruthyStr m.data.callsign = true
    · rw [if_pos ht]
      simp [AircraftState.update_timestamp, h1, h2, h3]
    · rw [if_neg ht]
      exact ⟨h1, h2, h3⟩
  · by_cases hpos : m.msg_type = some "position" ∨ m.msg_type = some "position_gnss" ∨
        m.msg_type = some "surface_position"
    · cases hmsg : m.msg with
      | none =>
        rw [dispatch_position_noraw_eq r now a m hid hpos (Or.inl hmsg)]
        simp [AircraftState.update_timestamp, h1, h2, h3]
      | some raw =>
        by_cases hraw : (raw != "") = true
        · have hair_case : ∀ hair2 : m.msg_type = some "position" ∨
              m.msg_type = some "position_gnss",
              (SeenAircraft.dispatch_message r now a m).cpr_even = none ∧
              (SeenAircraft.dispatch_message r now a m).lat = none ∧
              (SeenAircraft.dispatch_message r now a m).lon = none := by
            intro hair2
            have hflag : m.data.cpr_odd_flag.getD false = true := by
              rcases hair2 with hh | hh <;>
                simpa [stores_even_frame, hh, hmsg, hraw] using hQ
            rw [dispatch_airborne_eq r now a m raw hid hair2 hmsg hraw, hflag]
            obtain ⟨hu, hbeven⟩ := upm_even_none r now a raw m.data.altitude h1
            rw [hu]
            obtain ⟨hlat, hlon⟩ := cpr_buffer_state_latlon now a raw m.data.altitude true
            rw [hlat, hlon]
            exact ⟨hbeven, h2, h3⟩
          rcases hpos with hh | hh | hh
          · exact hair_case (Or.inl hh)
          · exact hair_case (Or.inr hh)
          · rw [dispatch_surface_eq r now a m raw hid hh hmsg hraw]
            cases m.data.altitude <;> simp [AircraftState.update_timestamp, h1, h2, h3]
        · have hraw2 : (raw != "") = false := by simpa using hraw
          rw [dispatch_position_noraw_eq r now a m hid hpos (Or.inr ⟨raw, hmsg, hraw2⟩)]
          simp [AircraftState.update_timestamp, h1, h2, h3]
    · by_cases hvel : m.msg_type = some "velocity"
      · rw [dispatch_velocity_eq r now a m hid hvel]
        cases hb1 : m.data.speed.isSome <;> cases hb2 : m.data.heading.isSome <;>
          cases hb3 : m.data.vertical_rate.isSome <;> cases hb4 : m.data.velocity_type.isSome <;>
          simp [hb1, hb2, hb3, hb4, AircraftState.set_speed, AircraftState.set_heading,
            AircraftState.set_vertical_rate, AircraftState.set_velocity_type,
            AircraftState.update_timestamp, h1, h2, h3]
      · by_cases hsurv : m.msg_type = some "surveillance_alt" ∨ m.msg_type = some "commb_alt" ∨
            m.msg_type = some "short_acas" ∨ m.msg_type = some "long_acas"
        · rw [dispatch_surveillance_eq r now a m hid hsurv]
          cases m.data.altitude <;> simp [AircraftState.update_timestamp, h1, h2, h3]
        · rw [dispatch_other_eq r now a m hid hpos hvel hsurv]
          simp [AircraftState.update_timestamp, h1, h2, h3]

/-- A per-key invariant preserved by the record dispatch (under a message
condition) and satisfied by freshly created records holds for the record
stored under that key after any event sequence is folded through the
registry. -/
theorem run_key_invariant (r : Resolver) (P : AircraftState → Prop) (Q : DecodedMsg → Prop)
    (k : String)
    (hstep : ∀ now a m, P a → Q m → P (SeenAircraft.dispatch_message r now a m))
    (hnew : ∀ now, P (AircraftState.create k now)) :
    ∀ evs st, (∀ a, lookupAircraft st.aircraft k = some a → P a) →
      (∀ e ∈ evs, e.2.icao = some k → Q e.2) →
      ∀ a, lookupAircraft (run_messages r st evs).aircraft k = some a → P a := by
  intro evs
  induction evs with
  | nil =>
    intro st hst hall a ha
    exact hst a (by simpa [run_messages] using ha)
  | cons e t ih =>
    intro st hst hall a ha
    have hrun : run_messages r st (e :: t) =
        run_messages r (st.update_from_decoded_message r e.1 e.2).1 t := by
      simp [run_messages]
    rw [hrun] at ha
    refine ih (st.update_from_decoded_message r e.1 e.2).1 ?_
      (fun e2 he2 => hall e2 (List.mem_cons_of_mem e he2)) a ha
    intro a2 ha2
    cases hico : e.2.icao with
    | none =>
      have hsame : (st.update_from_decoded_message r e.1 e.2).1 = st := by
        simp [SeenAircraft.update_from_decoded_message, hico]
      rw [hsame] at ha2
      exact hst a2 ha2
    | some k2 =>
      have hupd : (st.update_from_decoded_message r e.1 e.2).1.aircraft =
          setAircraft st.aircraft k2
            (SeenAircraft.dispatch_message r e.1
              (match lookupAircraft st.aircraft k2 with
               | some a0 => a0
               | none => AircraftState.create k2 e.1) e.2) := by
        simp [SeenAircraft.update_from_decoded_message, hico]
      by_cases hk : k2 = k
      · subst hk
        rw [hupd] at ha2
        simp only [lookupAircraft_set_self] at ha2
        have ha2' := (Option.some.inj ha2).symm
        subst ha2'
        have hQ : Q e.2 := hall e (List.mem_cons_self e t) hico
        cases hl : lookupAircraft st.aircraft k2 with
        | none => exact hstep e.1 _ e.2 (hnew e.1) hQ
        | some a0 => exact hstep e.1 a0 e.2 (hst a0 hl) hQ
      · rw [hupd] at ha2
        have hne : k ≠ k2 := fun h => hk h.symm
        rw [show lookupAircraft (setAircraft st.aircraft k2
            (SeenAircraft.dispatch_message r e.1
              (match lookupAircraft st.aircraft k2 with
               | some a0 => a0
               | none => AircraftState.create k2 e.1) e.2)) k =
            lookupAircraft st.aircraft k from
          lookupAircraft_set_ne _ _ _ _ hne] at ha2
        exact hst a2 ha2

/-- C5: starting from an empty registry, every stored record has latitude
and longitude either both present or both absent (they are written only
together by the pairing step), and a key that never receives an
odd-parity (respectively even-parity) airborne position frame keeps its
position absent forever. -/
theorem latlon_pairing_invariant (r : Resolver) (evs : List (Int × DecodedMsg)) :
    (∀ k a, lookupAircraft (run_messages r {} evs).aircraft k = some a →
      a.lat.isSome = a.lon.isSome) ∧
    (∀ k, (∀ e ∈ evs, e.2.icao = some k → stores_odd_frame e.2 = false) →
      ∀ a, lookupAircraft (run_messages r {} evs).aircraft k = some a →
        a.lat = none ∧ a.lon = none) ∧
    (∀ k, (∀ e ∈ evs, e.2.icao = some k → stores_even_frame e.2 = false) →
      ∀ a, lookupAircraft (run_messages r {} evs).aircraft k = some a →
        a.lat = none ∧ a.lon = none) := by
  refine ⟨?_, ?_, ?_⟩
  · intro k
    exact run_key_invariant r (fun a => a.lat.isSome = a.lon.isSome) (fun _ => True) k
      (fun now a m hP _ => dispatch_pair r now a m hP)
      (fun now => by simp [AircraftState.create])
      evs {} (by intro a ha; simp [lookupAircraft] at ha)
      (fun e _ _ => trivial)
  · intro k hQ a ha
    have h := run_key_invariant r
      (fun a => a.cpr_odd = none ∧ a.lat = none ∧ a.lon = none)
      (fun m => stores_odd_frame m = false) k
      (fun now a m hP hQm => dispatch_odd_none r now a m hP.1 hP.2.1 hP.2.2 hQm)
      (fun now => by simp [AircraftState.create])
      evs {} (by intro a2 ha2; simp [lookupAircraft] at ha2) hQ a ha
    exact ⟨h.2.1, h.2.2⟩
  · intro k hQ a ha
    have h := run_key_invariant r
      (fun a => a.cpr_even = none ∧ a.lat = none ∧ a.lon = none)
      (fun m => stores_even_frame m = false) k
      (fun now a m hP hQm => dispatch_even_none r now a m hP.1 hP.2.1 hP.2.2 hQm)
      (fun now => by simp [AircraftState.create])
      evs {} (by intro a2 ha2; simp [lookupAircraft] at ha2) hQ a ha
    exact ⟨h.2.1, h.2.2⟩

/-- The record stored under "AB" after a single even position frame. -/
def aEvenOnly : AircraftState :=
  { icao := "AB", alt := some 35000, cpr_even := some ("EVENFRAME", 0),
    first_seen := 0, last_seen := 0, message_count := 2 }

/-- Witness for C5: one even-only run leaves the position absent. -/
theorem latlon_pairing_invariant_witness :
    aEvenOnly.lat = none ∧ aEvenOnly.lon = none :=
  (latlon_pairing_invariant res0 [(0, mPosEW)]).2.1 "AB" (by decide) aEvenOnly (by decide)

theorem is_complete_true_iff (a : AircraftState) :
    a.is_complete = true ↔
      (a.callsign.isSome = true ∧ a.lat.isSome = true ∧ a.lon.isSome = true ∧
       a.alt.isSome = true ∧ a.speed.isSome = true ∧ a.heading.isSome = true ∧
       a.vertical_rate.isSome = true) := by
  simp [AircraftState.is_complete, Bool.and_eq_true, and_assoc]

/-- C6: no dispatch branch ever clears a set field — each of callsign,
latitude, longitude, altitude, speed, heading and vertical rate stays
present once present — and therefore completeness is monotonic under
every message. -/
theorem completeness_monotonic (r : Resolver) (now : Int) (a : AircraftState) (m : DecodedMsg) :
    ((a.callsign.isSome = true →
        (SeenAircraft.dispatch_message r now a m).callsign.isSome = true) ∧
     (a.lat.isSome = true → (SeenAircraft.dispatch_message r now a m).lat.isSome = true) ∧
     (a.lon.isSome = true → (SeenAircraft.dispatch_message r now a m).lon.isSome = true) ∧
     (a.alt.isSome = true → (SeenAircraft.dispatch_message r now a m).alt.isSome = true) ∧
     (a.speed.isSome = true → (SeenAircraft.dispatch_message r now a m).speed.isSome = true) ∧
     (a.heading.isSome = true →
        (SeenAircraft.dispatch_message r now a m).heading.isSome = true) ∧
     (a.vertical_rate.isSome = true →
        (SeenAircraft.dispatch_message r now a m).vertical_rate.isSome = true)) ∧
    (a.is_complete = true → (SeenAircraft.dispatch_message r now a m).is_complete = true) := by
  obtain ⟨p1, p2, p3, p4, p5, p6, p7⟩ := dispatch_preserves r now a m
  refine ⟨⟨p1, p2, p3, p4, p5, p6, p7⟩, ?_⟩
  intro h
  rw [is_complete_true_iff] at h ⊢
  obtain ⟨hcs, hlat, hlon, halt, hsp, hhd, hvr⟩ := h
  exact ⟨p1 hcs, p2 hlat, p3 hlon, p4 halt, p5 hsp, p6 hhd, p7 hvr⟩

def mC6 : DecodedMsg := { icao := some "AB", msg_type := some "status" }

/-- Witness for C6: a concrete complete record stays complete. -/
theorem completeness_monotonic_witness :
    (SeenAircraft.dispatch_message res0 6 aC5 mC6).is_complete = true :=
  (completeness_monotonic res0 6 aC5 mC6).2 (by decide)

def mVelCex : DecodedMsg :=
  { icao := some "ABC123", msg_type := some "velocity",
    data := { speed := some 450, heading := some 270 } }

/-- Counterexample to C4 as stated: the first message for a key is a
velocity message carrying speed and heading; the claim predicts
`messageCount = N + 1 = 2`, but the code increments once per sub-field
setter, giving 3. -/
theorem velocity_multi_count_cex :
    (Option.map AircraftState.message_count
      (lookupAircraft
        ((SeenAircraft.update_from_decoded_message res0 0 {} mVelCex).1).aircraft
        "ABC123") = some 3) ∧
    ¬ (Option.map AircraftState.message_count
      (lookupAircraft
        ((SeenAircraft.update_from_decoded_message res0 0 {} mVelCex).1).aircraft
        "ABC123") = some 2) := by
  decide

/-- C4 (amended): `messageCount` starts at 1 on creation, and each
processed message advances it by `count_increment`: exactly one for every
branch except that a velocity message adds one per sub-field present
(speed/heading/verticalRate/velocityType; one when none are present), and
an identity message with a present-but-empty callsign adds zero. -/
theorem message_count_per_mutation (r : Resolver) (now : Int) (a : AircraftState)
    (m : DecodedMsg) :
    (AircraftState.create a.icao now).message_count = 1 ∧
    (SeenAircraft.dispatch_message r now a m).message_count =
      a.message_count + count_increment m :=
  ⟨rfl, dispatch_count r now a m⟩

/-! ## C9: the decoder error boundary -/

/-- C9: `decode_message` is total — for every input it yields either a
decoded message or an error value (every raised library exception is
converted by the surrounding handler) — and whenever decoding a processed
line yields an error value, the consumer step leaves the registry
untouched and emits nothing (the line is skipped). -/
theorem decode_total_and_error_skips (pms : PMS) (r : Resolver) (now : Int)
    (st : SeenAircraft) :
    (∀ m, (∃ d, decode_message pms m = DecodeResult.ok d) ∨
          (∃ e, decode_message pms m = DecodeResult.error e)) ∧
    (∀ line e, decode_message pms (py_strip line) = DecodeResult.error e →
      consume_line pms r now st line = (st, none)) := by
  constructor
  · intro m
    cases h : decode_message pms m with
    | ok d => exact Or.inl ⟨d, rfl⟩
    | error e => exact Or.inr ⟨e, rfl⟩
  · intro line e h
    simp only [consume_line]
    by_cases hg : (py_strip line == "" || !str_startswith (py_strip line) "*") = true
    · rw [if_pos hg]
    · rw [if_neg hg]
      rw [h]

/-- A decoder whose external primitives always raise. -/
def pmsBad : PMS :=
  { df := fun _ => .error "boom", icao := fun _ => .error "boom",
    typecode := fun _ => .error "boom", adsb_callsign := fun _ => .error "boom",
    oe_flag := fun _ => .error "boom", adsb_altitude := fun _ => .error "boom",
    adsb_velocity := fun _ => .error "boom", emergency_state := fun _ => .error "boom",
    emergency_squawk := fun _ => .error "boom", altcode := fun _ => .error "boom",
    idcode := fun _ => .error "boom" }

/-- Witness for C9: a failing decode skips the line with no registry
change. -/
theorem decode_total_and_error_skips_witness :
    consume_line pmsBad res0 0 {} "*AA;" = ({}, none) :=
  (decode_total_and_error_skips pmsBad res0 0 {}).2 "*AA;"
    "Error decoding message AA: boom" (by decide)
